import Mathlib

/- Verification of the Alicloud MongoDB instance resource
   (alicloud/resource_alicloud_mongodb_instance.go) against its
   natural-language specification.  The Go handlers are shallowly embedded:
   every remote interaction is mediated by an environment of outcome oracles
   (`Env`), and each handler additionally returns the trace of remote calls
   it issued, so that frame and ordering properties can be stated. -/

set_option autoImplicit false

deriving instance DecidableEq for Except

namespace MDB

/-- Character-level prefix test, helper for Go `strings.Contains`. -/
def listPrefixOf : List Char → List Char → Bool
  | [], _ => true
  | _ :: _, [] => false
  | a :: as, b :: bs => a == b && listPrefixOf as bs

/-- Character-level contiguous-infix test, helper for Go `strings.Contains`. -/
def listInfixOf (pat : List Char) : List Char → Bool
  | [] => pat.isEmpty
  | h :: tail => listPrefixOf pat (h :: tail) || listInfixOf pat tail

/-- Go `strings.Contains(s, pat)`. -/
def goContains (s pat : String) : Bool :=
  listInfixOf pat.data s.data

/-- Split a character list on a separator character; the separator is dropped.
Mirrors Go `strings.Split` for a one-character separator. -/
def splitOnChar (sep : Char) : List Char → List (List Char)
  | [] => [[]]
  | c :: cs =>
    if c == sep then [] :: splitOnChar sep cs
    else
      match splitOnChar sep cs with
      | [] => [[c]]
      | h :: t => (c :: h) :: t

/-- Go `strings.Split(s, sep)` for a one-character separator. -/
def goSplit (s : String) (sep : Char) : List String :=
  (splitOnChar sep s.data).map String.mk

/-- Go `strings.SplitAfter(s, sep)` for a one-character separator: like Split
but every piece except the last keeps the trailing separator. -/
def goSplitAfter (s : String) (sep : Char) : List String :=
  match splitOnChar sep s.data with
  | [] => []
  | ps => (ps.dropLast.map (fun p => String.mk (p ++ [sep]))) ++ [String.mk (ps.getLastD [])]

/-- Go `strings.Join(l, sep)`. -/
def goJoin (l : List String) (sep : String) : String :=
  match l with
  | [] => ""
  | a :: rest => rest.foldl (fun acc x => acc ++ sep ++ x) a

/-- ASCII whitespace recognizer used by the provider's `Trim` helper
(Go `strings.TrimSpace`; the zone/vswitch identifiers are ASCII). -/
def isGoSpace (c : Char) : Bool :=
  c == ' ' || c == '\t' || c == '\n' || c == '\r'

/-- Strip leading whitespace from a character list. -/
def trimLeftChars : List Char → List Char
  | [] => []
  | c :: cs => if isGoSpace c then trimLeftChars cs else c :: cs

/-- Provider helper `Trim` (Go `strings.TrimSpace`). -/
def Trim (s : String) : String :=
  String.mk (trimLeftChars (trimLeftChars s.data).reverse).reverse

/-- ASCII upper-casing of one character, helper for Go `strings.ToUpper`. -/
def charUpper (c : Char) : Char :=
  if 'a' ≤ c && c ≤ 'z' then Char.ofNat (c.toNat - 32) else c

/-- Go `strings.ToUpper` on ASCII strings. -/
def goToUpper (s : String) : String :=
  String.mk (s.data.map charUpper)

/-- Digit-list accumulator for `goAtoi`. -/
def digitsToNatAux : List Char → Nat → Option Nat
  | [], acc => some acc
  | c :: cs, acc =>
    if c.isDigit then digitsToNatAux cs (acc * 10 + (c.toNat - '0'.toNat)) else none

/-- Go `strconv.Atoi`: optional sign followed by at least one digit. -/
def goAtoi (s : String) : Option Int :=
  match s.data with
  | '+' :: cs => if cs.isEmpty then none else (digitsToNatAux cs 0).map (fun n => (n : Int))
  | '-' :: cs => if cs.isEmpty then none else (digitsToNatAux cs 0).map (fun n => -(n : Int))
  | cs => if cs.isEmpty then none else (digitsToNatAux cs 0).map (fun n => (n : Int))

/-- The character placed between the `(` and matching `)` of a multi-zone
identifier: Go `strings.Split(strings.SplitAfter(zoneId, "(")[1], ")")[0]`.
Go panics when no `(` occurs; that path is modelled as the empty string. -/
def extractParenSet (zoneId : String) : String :=
  (goSplit ((goSplitAfter zoneId '(').getD 1 "") ')').getD 0 ""

/-- One-character string holding the last character of s:
Go `string([]byte(s)[len(s)-1])` for ASCII s.  Go panics on an empty
string; that path is modelled as the empty string. -/
def lastCharStr (s : String) : String :=
  match s.data.reverse with
  | [] => ""
  | c :: _ => String.mk [c]

/-- Modelled from the spec: the loopback-only default for the allowed-IP
string (constant `LOCAL_HOST_IP`, declared outside the provided source). -/
def LOCAL_HOST_IP : String := "127.0.0.1"

/-- Modelled from the spec: the vendor's delimiter for joined IP lists
(constant `COMMA_SEPARATED`, declared outside the provided source). -/
def COMMA_SEPARATED : String := ","

/-- Modelled from the spec: the marker that a declared zone is a multi-zone
group (constant `MULTI_IZ_SYMBOL`, declared outside the provided source). -/
def MULTI_IZ_SYMBOL : String := "MAZ"

/-- Modelled from the spec: prepaid billing-mode constant `PrePaid`. -/
def PrePaid : String := "PrePaid"

/-- Modelled from the spec: classic network-type constant `Classic`. -/
def Classic : String := "Classic"

/-- Modelled from the spec: VPC network-type constant `Vpc`
(the builder upper-cases it). -/
def Vpc : String := "Vpc"

/-- Remote API / helper errors.  `notFound` stands for the vendor's
"instance does not exist" error class, recognized by the provider's
`NotFoundError` / `NotFoundMongoDBInstance` / `IsExceptedErrors
(InvalidDBInstanceId.NotFound)` predicates. -/
inductive ApiErr where
  | notFound
  | other (msg : String)
  deriving DecidableEq

/-- Modelled from the spec: the provider's "not found" error classifier
(`NotFoundError`, declared outside the provided source). -/
def NotFoundError : ApiErr → Bool
  | .notFound => true
  | .other _ => false

/-- The user-declared configuration plus the resource identity slot, i.e. the
`schema.ResourceData` fields read and written by this resource.  The schema
key `db_instance_class` is embedded as the field `db_instance_cls`.
`replication_factor` and `period` are `Option` because the handlers read
them through `GetOk`, which distinguishes unset/zero from set. -/
structure ResourceData where
  id : String := ""
  engine_version : String := ""
  db_instance_cls : String := ""
  db_instance_storage : Int := 0
  replication_factor : Option Int := none
  storage_engine : String := ""
  instance_charge_type : String := ""
  period : Option Int := none
  zone_id : String := ""
  vswitch_id : String := ""
  name : String := ""
  security_ip_list : List String := []
  account_password : String := ""
  kms_encrypted_password : String := ""
  kms_encryption_context : List (String × String) := []
  backup_period : List String := []
  backup_time : String := ""
  retention_period : Int := 0
  maintain_start_time : String := ""
  maintain_end_time : String := ""
  deriving DecidableEq

/-- The empty descriptor (all schema defaults). -/
def emptyResourceData : ResourceData := {}

/-- The vswitch record returned by the network lookup service. -/
structure VSwitch where
  vSwitchId : String
  zoneId : String
  vpcId : String
  deriving DecidableEq

/-- The observed instance record returned by the describe call.  The field
`DBInstanceClass` is embedded as `dbInstanceCls`. -/
structure ObservedInstance where
  dbInstanceDescription : String := ""
  engineVersion : String := ""
  dbInstanceCls : String := ""
  dbInstanceStorage : Int := 0
  zoneId : String := ""
  chargeType : String := ""
  vSwitchId : String := ""
  storageEngine : String := ""
  maintainStartTime : String := ""
  maintainEndTime : String := ""
  replicationFactor : String := ""
  deriving DecidableEq

/-- The backup-policy sub-resource returned by the describe-backup-policy
call. -/
structure BackupPolicy where
  preferredBackupTime : String := ""
  preferredBackupPeriod : String := ""
  backupRetentionPeriod : Int := 0
  deriving DecidableEq

/-- The create request payload (`dds.CreateDBInstanceRequest`); the field
`DBInstanceClass` is embedded as `dbInstanceCls`. -/
structure CreateDBInstanceRequest where
  regionId : String
  engineVersion : String
  engine : String
  dbInstanceStorage : Int
  dbInstanceCls : String
  dbInstanceDescription : String
  accountPassword : String
  zoneId : String
  storageEngine : String
  replicationFactor : String
  networkType : String
  vSwitchId : String
  vpcId : String
  chargeType : String
  period : Option Int
  securityIPList : String
  deriving DecidableEq

/-- One remote interaction, as recorded in a handler's trace. -/
inductive RemoteCall where
  | decrypt (ciphertext : String)
  | describeVSwitch (vswitchId : String)
  | createDBInstance
  | modifyBackupPolicy
  | modifyMaintainTime (startTime endTime : String)
  | modifyDescription (name : String)
  | modifySecurityIps (ipstr : String)
  | resetAccountPassword (password : String)
  | modifySpec (cls storage replicationFactor : String)
  | deleteDBInstance
  | waitForState (pending target : List String)
  | describeInstance (id : String)
  | describeBackupPolicy (id : String)
  | getSecurityIps (id : String)
  deriving DecidableEq

/-- Does the call submit the modify-spec request. -/
def RemoteCall.isModifySpec : RemoteCall → Bool
  | .modifySpec _ _ _ => true
  | _ => false

/-- Does the call mutate remote state. -/
def RemoteCall.isMutating : RemoteCall → Bool
  | .createDBInstance => true
  | .modifyBackupPolicy => true
  | .modifyMaintainTime _ _ => true
  | .modifyDescription _ => true
  | .modifySecurityIps _ => true
  | .resetAccountPassword _ => true
  | .modifySpec _ _ _ => true
  | .deleteDBInstance => true
  | _ => false

/-- Is the call one of the three read calls issued by the Read handler. -/
def RemoteCall.isReadCall : RemoteCall → Bool
  | .describeInstance _ => true
  | .describeBackupPolicy _ => true
  | .getSecurityIps _ => true
  | _ => false

/-- Is the call allowed during the first-ever reconciliation pass:
the backup-policy group, the maintain-time group, or the final Read. -/
def RemoteCall.isFirstPassAllowed : RemoteCall → Bool
  | .modifyBackupPolicy => true
  | .modifyMaintainTime _ _ => true
  | .describeInstance _ => true
  | .describeBackupPolicy _ => true
  | .getSecurityIps _ => true
  | _ => false

/-- Outcome oracles for every external interaction a handler can perform.
`wait n` is the outcome of the n-th status poll inside the Update handler;
`waitCreate` / `waitDelete` are the post-create and post-delete polls;
`deleteAttempt n` is the outcome of the n-th delete call in the retry loop. -/
structure Env where
  region : String
  decrypt : String → List (String × String) → Except ApiErr String
  describeVSwitch : String → Except ApiErr VSwitch
  createDBInstance : CreateDBInstanceRequest → Except ApiErr String
  modifyBackupPolicy : Except ApiErr Unit
  modifyMaintainTime : Except ApiErr Unit
  modifyDescription : String → Except ApiErr Unit
  modifySecurityIps : String → Except ApiErr Unit
  resetAccountPassword : String → Except ApiErr Unit
  modifySpec : Except ApiErr Unit
  wait : Nat → Except ApiErr Unit
  waitCreate : Except ApiErr Unit
  waitDelete : Except ApiErr Unit
  deleteAttempt : Nat → Except ApiErr Unit
  describeInstance : String → Except ApiErr ObservedInstance
  describeBackupPolicy : String → Except ApiErr BackupPolicy
  getSecurityIps : String → Except ApiErr (List String)

/-- Credential resolution in `buildMongoDBCreateRequest` (lines 156-166):
`request.AccountPassword = d.Get("account_password")`; when that is empty
and `kms_encrypted_password` is ALSO empty the source decrypts the (empty)
ciphertext and uses the plaintext; a non-empty ciphertext is never
decrypted.  The inverted guard is embedded exactly as written. -/
def resolveCreatePassword (env : Env) (d : ResourceData) :
    Except ApiErr String × List RemoteCall :=
  if d.account_password == "" then
    if d.kms_encrypted_password == "" then
      (env.decrypt d.kms_encrypted_password d.kms_encryption_context,
       [.decrypt d.kms_encrypted_password])
    else (.ok d.account_password, [])
  else (.ok d.account_password, [])

/-- Error message of line 193 (`fmt.Errorf`). -/
def zoneMismatchMsg (vswitchId zoneId : String) : String :=
  "The specified vswitch " ++ vswitchId ++ " isn't in the zone " ++ zoneId ++ "."

/-- Error message of line 190 (`fmt.Errorf`). -/
def multiZoneMismatchMsg (vswitchId zoneId : String) : String :=
  "The specified vswitch " ++ vswitchId ++ " isn't in the multi zone " ++ zoneId ++ "."

/-- The network placement part of the create request. -/
structure NetChoice where
  zoneId : String
  networkType : String
  vSwitchId : String
  vpcId : String
  deriving DecidableEq

/-- Network resolution in `buildMongoDBCreateRequest` (lines 175-198):
default Classic networking; with a vswitch, look it up, adopt its zone when
the declared zone is empty, check suffix membership for a multi-zone group,
check exact equality for a plain zone, and adopt VPC networking. -/
def resolveNetwork (env : Env) (d : ResourceData) :
    Except ApiErr NetChoice × List RemoteCall :=
  if Trim d.vswitch_id == "" then
    (.ok { zoneId := d.zone_id, networkType := Classic, vSwitchId := "", vpcId := "" }, [])
  else
    match env.describeVSwitch (Trim d.vswitch_id) with
    | .error e => (.error e, [.describeVSwitch (Trim d.vswitch_id)])
    | .ok vsw =>
      if d.zone_id == "" then
        (.ok { zoneId := vsw.zoneId, networkType := goToUpper Vpc,
               vSwitchId := Trim d.vswitch_id, vpcId := vsw.vpcId },
         [.describeVSwitch (Trim d.vswitch_id)])
      else if goContains d.zone_id MULTI_IZ_SYMBOL then
        if !(goContains (extractParenSet d.zone_id) (lastCharStr vsw.zoneId)) then
          (.error (.other (multiZoneMismatchMsg vsw.vSwitchId d.zone_id)),
           [.describeVSwitch (Trim d.vswitch_id)])
        else
          (.ok { zoneId := d.zone_id, networkType := goToUpper Vpc,
                 vSwitchId := Trim d.vswitch_id, vpcId := vsw.vpcId },
           [.describeVSwitch (Trim d.vswitch_id)])
      else if d.zone_id != vsw.zoneId then
        (.error (.other (zoneMismatchMsg vsw.vSwitchId d.zone_id)),
         [.describeVSwitch (Trim d.vswitch_id)])
      else
        (.ok { zoneId := d.zone_id, networkType := goToUpper Vpc,
               vSwitchId := Trim d.vswitch_id, vpcId := vsw.vpcId },
         [.describeVSwitch (Trim d.vswitch_id)])

/-- The allowed-IP string placed in the create request (lines 206-209):
loopback default, overridden by the joined user set when non-empty. -/
def computeCreateSecurityIpStr (d : ResourceData) : String :=
  if d.security_ip_list.length > 0 then goJoin d.security_ip_list COMMA_SEPARATED
  else LOCAL_HOST_IP

/-- Final field assembly of `buildMongoDBCreateRequest` given the resolved
password and network placement. -/
def assembleCreateRequest (env : Env) (d : ResourceData) (pw : String)
    (net : NetChoice) : CreateDBInstanceRequest :=
  { regionId := env.region
    engineVersion := Trim d.engine_version
    engine := "MongoDB"
    dbInstanceStorage := d.db_instance_storage
    dbInstanceCls := Trim d.db_instance_cls
    dbInstanceDescription := d.name
    accountPassword := pw
    zoneId := net.zoneId
    storageEngine := d.storage_engine
    replicationFactor :=
      match d.replication_factor with
      | some n => toString n
      | none => ""
    networkType := net.networkType
    vSwitchId := net.vSwitchId
    vpcId := net.vpcId
    chargeType := d.instance_charge_type
    period :=
      match d.period with
      | some p => if d.instance_charge_type == PrePaid then some p else none
      | none => none
    securityIPList := computeCreateSecurityIpStr d }

/-- Embedding of `buildMongoDBCreateRequest` (lines 145-213). -/
def buildMongoDBCreateRequest (env : Env) (d : ResourceData) :
    Except ApiErr CreateDBInstanceRequest × List RemoteCall :=
  match resolveCreatePassword env d with
  | (.error e, l) => (.error e, l)
  | (.ok pw, l) =>
    match resolveNetwork env d with
    | (.error e, l2) => (.error e, l ++ l2)
    | (.ok net, l2) => (.ok (assembleCreateRequest env d pw net), l ++ l2)

/-- Mirror of the backup-policy fields onto the descriptor
(Read, lines 262-264). -/
def mirrorBackupFields (d : ResourceData) (bp : BackupPolicy) : ResourceData :=
  { d with backup_time := bp.preferredBackupTime
           backup_period := goSplit bp.preferredBackupPeriod ','
           retention_period := bp.backupRetentionPeriod }

/-- Mirror of the allowed-IP list and the instance fields onto the
descriptor (Read, lines 270-285); a replica-count parse failure silently
skips that one assignment. -/
def mirrorInstanceFields (d : ResourceData) (inst : ObservedInstance)
    (ips : List String) : ResourceData :=
  match goAtoi inst.replicationFactor with
  | some n =>
    { d with security_ip_list := ips
             name := inst.dbInstanceDescription
             engine_version := inst.engineVersion
             db_instance_cls := inst.dbInstanceCls
             db_instance_storage := inst.dbInstanceStorage
             zone_id := inst.zoneId
             instance_charge_type := inst.chargeType
             vswitch_id := inst.vSwitchId
             storage_engine := inst.storageEngine
             maintain_start_time := inst.maintainStartTime
             maintain_end_time := inst.maintainEndTime
             replication_factor := some n }
  | none =>
    { d with security_ip_list := ips
             name := inst.dbInstanceDescription
             engine_version := inst.engineVersion
             db_instance_cls := inst.dbInstanceCls
             db_instance_storage := inst.dbInstanceStorage
             zone_id := inst.zoneId
             instance_charge_type := inst.chargeType
             vswitch_id := inst.vSwitchId
             storage_engine := inst.storageEngine
             maintain_start_time := inst.maintainStartTime
             maintain_end_time := inst.maintainEndTime }

/-- Embedding of `resourceAlicloudMongoDBInstanceRead` (lines 245-288):
a "not found" describe result clears the identity and succeeds; any other
failure propagates; on success every observed field is mirrored back. -/
def resourceAlicloudMongoDBInstanceRead (env : Env) (d : ResourceData) :
    Except ApiErr Unit × ResourceData × List RemoteCall :=
  match env.describeInstance d.id with
  | .error e =>
    if NotFoundError e then (.ok (), { d with id := "" }, [.describeInstance d.id])
    else (.error e, d, [.describeInstance d.id])
  | .ok inst =>
    match env.describeBackupPolicy d.id with
    | .error e => (.error e, d, [.describeInstance d.id, .describeBackupPolicy d.id])
    | .ok bp =>
      match env.getSecurityIps d.id with
      | .error e =>
        (.error e, mirrorBackupFields d bp,
         [.describeInstance d.id, .describeBackupPolicy d.id, .getSecurityIps d.id])
      | .ok ips =>
        (.ok (), mirrorInstanceFields (mirrorBackupFields d bp) inst ips,
         [.describeInstance d.id, .describeBackupPolicy d.id, .getSecurityIps d.id])

/-- Outcome of one update field-group: result plus issued calls. -/
abbrev StepResult := Except ApiErr Unit × List RemoteCall

/-- Sequential composition of update field-groups: the second group runs
only when the first succeeded (the Go handler returns on the first error). -/
def andThen (p q : StepResult) : StepResult :=
  match p with
  | (.error e, l) => (.error e, l)
  | (.ok _, l) => (q.1, l ++ q.2)

/-- Update group 1 (lines 296-302): backup window. -/
def backupPolicyGroup (env : Env) (old d : ResourceData) : StepResult :=
  if old.backup_time != d.backup_time || old.backup_period != d.backup_period then
    (env.modifyBackupPolicy, [.modifyBackupPolicy])
  else (.ok (), [])

/-- Update group 2 (lines 304-320): maintenance window. -/
def maintainTimeGroup (env : Env) (old d : ResourceData) : StepResult :=
  if old.maintain_start_time != d.maintain_start_time
      || old.maintain_end_time != d.maintain_end_time then
    (env.modifyMaintainTime, [.modifyMaintainTime d.maintain_start_time d.maintain_end_time])
  else (.ok (), [])

/-- Update group 4 (lines 327-341): display name. -/
def nameGroup (env : Env) (old d : ResourceData) : StepResult :=
  if old.name != d.name then
    (env.modifyDescription d.name, [.modifyDescription d.name])
  else (.ok (), [])

/-- The allowed-IP string recomputed by the update handler (lines 344-349):
joined user set, defaulting to loopback when the join is empty. -/
def computeUpdateSecurityIpStr (d : ResourceData) : String :=
  if goJoin d.security_ip_list COMMA_SEPARATED == "" then LOCAL_HOST_IP
  else goJoin d.security_ip_list COMMA_SEPARATED

/-- Update group 5 (lines 343-355): allowed-IP list. -/
def securityIpsGroup (env : Env) (old d : ResourceData) : StepResult :=
  if old.security_ip_list != d.security_ip_list then
    (env.modifySecurityIps (computeUpdateSecurityIpStr d),
     [.modifySecurityIps (computeUpdateSecurityIpStr d)])
  else (.ok (), [])

/-- Credential resolution of update group 6 (lines 358-371): a non-empty
clear-text credential is used directly; otherwise the KMS ciphertext
(whatever it is, including empty) is decrypted. -/
def resolveUpdatePassword (env : Env) (d : ResourceData) :
    Except ApiErr String × List RemoteCall :=
  if d.account_password != "" then (.ok d.account_password, [])
  else
    (env.decrypt d.kms_encrypted_password d.kms_encryption_context,
     [.decrypt d.kms_encrypted_password])

/-- Update group 6 (lines 357-377): credential reset. -/
def passwordGroup (env : Env) (old d : ResourceData) : StepResult :=
  if old.account_password != d.account_password
      || old.kms_encrypted_password != d.kms_encrypted_password then
    match resolveUpdatePassword env d with
    | (.error e, l) => (.error e, l)
    | (.ok pw, l) =>
      match env.resetAccountPassword pw with
      | .error e => (.error e, l ++ [.resetAccountPassword pw])
      | .ok _ => (.ok (), l ++ [.resetAccountPassword pw])
  else (.ok (), [])

/-- Pending statuses of the spec-change poll (line 391). -/
def specWaitPending : List String := ["DBInstanceClassChanging", "DBInstanceNetTypeChanging"]

/-- Target statuses of the spec-change poll (line 391). -/
def specWaitTarget : List String := ["Running"]

/-- The spec-change poll call. -/
def specWaitCall : RemoteCall := .waitForState specWaitPending specWaitTarget

/-- The modify-spec call built on lines 383-388. -/
def specCall (d : ResourceData) : RemoteCall :=
  .modifySpec d.db_instance_cls (toString d.db_instance_storage)
    (toString (d.replication_factor.getD 0))

/-- The capacity-group change predicate (lines 379-381): storage size,
instance class, or replica count changed. -/
def capCond (old d : ResourceData) : Bool :=
  old.db_instance_storage != d.db_instance_storage
    || old.db_instance_cls != d.db_instance_cls
    || old.replication_factor != d.replication_factor

/-- Update group 7 (lines 379-417): capacity change.  Poll to "Running",
submit the spec change, then poll to "Running" again (the source polls
twice after submitting, at lines 404 and 414). -/
def capacityGroup (env : Env) (old d : ResourceData) : StepResult :=
  if capCond old d then
    match env.wait 0 with
    | .error e => (.error e, [specWaitCall])
    | .ok _ =>
      match env.modifySpec with
      | .error e => (.error e, [specWaitCall, specCall d])
      | .ok _ =>
        match env.wait 1 with
        | .error e => (.error e, [specWaitCall, specCall d, specWaitCall])
        | .ok _ =>
          match env.wait 2 with
          | .error e => (.error e, [specWaitCall, specCall d, specWaitCall, specWaitCall])
          | .ok _ => (.ok (), [specWaitCall, specCall d, specWaitCall, specWaitCall])
  else (.ok (), [])

/-- Update groups 1-2, run before the new-resource check (line 322). -/
def preGroups (env : Env) (old d : ResourceData) : StepResult :=
  andThen (backupPolicyGroup env old d) (maintainTimeGroup env old d)

/-- Update groups 1-2 followed by groups 4-7, the full sequence for a
non-new resource. -/
def updateGroupsAll (env : Env) (old d : ResourceData) : StepResult :=
  andThen (preGroups env old d)
    (andThen (nameGroup env old d)
      (andThen (securityIpsGroup env old d)
        (andThen (passwordGroup env old d) (capacityGroup env old d))))

/-- Embedding of `resourceAlicloudMongoDBInstanceUpdate` (lines 290-420):
groups 1-2, then (unless this is a new resource) groups 4-7, each aborting
the rest on failure; a successful pass ends with a full Read. -/
def resourceAlicloudMongoDBInstanceUpdate (env : Env) (old d : ResourceData)
    (isNew : Bool) : Except ApiErr Unit × ResourceData × List RemoteCall :=
  match (if isNew then preGroups env old d else updateGroupsAll env old d) with
  | (.error e, l) => (.error e, d, l)
  | (.ok _, l) =>
    ((resourceAlicloudMongoDBInstanceRead env d).1,
     (resourceAlicloudMongoDBInstanceRead env d).2.1,
     l ++ (resourceAlicloudMongoDBInstanceRead env d).2.2)

/-- The post-create poll call (line 237). -/
def createWaitCall : RemoteCall := .waitForState ["Creating"] ["Running"]

/-- Embedding of `resourceAlicloudMongoDBInstanceCreate` (lines 215-243):
build the request, submit it, store the returned identifier, poll to
"Running", then run a full Update pass as a new resource (which diffs
against the empty prior state). -/
def resourceAlicloudMongoDBInstanceCreate (env : Env) (d : ResourceData) :
    Except ApiErr Unit × ResourceData × List RemoteCall :=
  match buildMongoDBCreateRequest env d with
  | (.error e, l) => (.error e, d, l)
  | (.ok req, l) =>
    match env.createDBInstance req with
    | .error e => (.error e, d, l ++ [.createDBInstance])
    | .ok newId =>
      match env.waitCreate with
      | .error e => (.error e, { d with id := newId }, l ++ [.createDBInstance, createWaitCall])
      | .ok _ =>
        ((resourceAlicloudMongoDBInstanceUpdate env emptyResourceData { d with id := newId } true).1,
         (resourceAlicloudMongoDBInstanceUpdate env emptyResourceData { d with id := newId } true).2.1,
         l ++ [.createDBInstance, createWaitCall]
           ++ (resourceAlicloudMongoDBInstanceUpdate env emptyResourceData { d with id := newId } true).2.2)

/-- The wall-clock budget, in minutes, of the delete retry loop:
`resource.Retry(10*5*time.Minute, ...)` at line 429. -/
def deleteRetryTimeoutMinutes : Nat := 10 * 5

/-- Modelled from the spec: the `resource.Retry` polling primitive (declared
outside the provided source) applied to the delete closure of lines 429-442.
`fuel` bounds the number of retries still allowed by the wall-clock budget;
attempt outcomes come from `env.deleteAttempt`.  A success stops the loop;
a "not found" error is non-retryable and stops the loop with that error;
any other error is retried while budget remains. -/
def retryDelete (env : Env) (fuel n : Nat) : Except ApiErr Unit × List RemoteCall :=
  match env.deleteAttempt n with
  | .ok _ => (.ok (), [.deleteDBInstance])
  | .error e =>
    if NotFoundError e then (.error e, [.deleteDBInstance])
    else
      match fuel with
      | 0 => (.error e, [.deleteDBInstance])
      | fuel' + 1 =>
        ((retryDelete env fuel' (n + 1)).1,
         RemoteCall.deleteDBInstance :: (retryDelete env fuel' (n + 1)).2)

/-- The post-delete poll call (line 450): no target states, i.e. wait until
the instance reports no current state. -/
def deleteWaitCall : RemoteCall := .waitForState ["Creating", "Deleting"] []

/-- Embedding of `resourceAlicloudMongoDBInstanceDelete` (lines 422-453):
retry the delete call; a "not found" outcome is success; after a
successful delete call, poll until the instance disappears. -/
def resourceAlicloudMongoDBInstanceDelete (env : Env) (fuel : Nat) :
    Except ApiErr Unit × List RemoteCall :=
  match retryDelete env fuel 0 with
  | (.error e, l) => if NotFoundError e then (.ok (), l) else (.error e, l)
  | (.ok _, l) =>
    match env.waitDelete with
    | .error e => (.error e, l ++ [deleteWaitCall])
    | .ok _ => (.ok (), l ++ [deleteWaitCall])

/-- Concrete vswitch fixture: subnet-A lives in zone z1 (spec §8 scenario). -/
def testVsw : VSwitch := { vSwitchId := "subnet-A", zoneId := "z1", vpcId := "vpc-1" }

/-- Concrete backup-policy fixture. -/
def testBackupPolicy : BackupPolicy :=
  { preferredBackupTime := "02:00Z-03:00Z", preferredBackupPeriod := "Monday", backupRetentionPeriod := 7 }

/-- Concrete environment fixture used by witnesses: every call succeeds, the
decryption service returns a marked plaintext, and the describe call reports
the instance as absent. -/
def testEnv : Env where
  region := "r"
  decrypt := fun c _ => .ok ("PT:" ++ c)
  describeVSwitch := fun v => if v == "subnet-A" then .ok testVsw else .error (.other "no vswitch")
  createDBInstance := fun _ => .ok "inst-1"
  modifyBackupPolicy := .ok ()
  modifyMaintainTime := .ok ()
  modifyDescription := fun _ => .ok ()
  modifySecurityIps := fun _ => .ok ()
  resetAccountPassword := fun _ => .ok ()
  modifySpec := .ok ()
  wait := fun _ => .ok ()
  waitCreate := .ok ()
  waitDelete := .ok ()
  deleteAttempt := fun _ => .ok ()
  describeInstance := fun _ => .error .notFound
  describeBackupPolicy := fun _ => .ok testBackupPolicy
  getSecurityIps := fun _ => .ok []

/-- Configuration with a KMS ciphertext and no clear-text credential. -/
def d1a : ResourceData := { db_instance_storage := 10, kms_encrypted_password := "CIPHER" }

/-- Configuration with neither credential supplied. -/
def d1b : ResourceData := { db_instance_storage := 10 }

/-- Prior state holding a clear-text credential (so the credential group
sees a change when the credential is removed). -/
def d1old : ResourceData := { account_password := "old" }

/-- Prior state for the capacity-change scenario (spec §8: storage 10). -/
def d2old : ResourceData :=
  { db_instance_storage := 10, db_instance_cls := "small", replication_factor := some 3 }

/-- Desired state for the capacity-change scenario (storage 10 → 20). -/
def d2new : ResourceData := { d2old with db_instance_storage := 20 }

/-- Delete environment whose very first delete attempt reports "not found". -/
def envDel3a : Env := { testEnv with deleteAttempt := fun _ => .error .notFound }

/-- Delete environment whose first two delete attempts fail transiently and
whose third succeeds. -/
def envDel3b : Env :=
  { testEnv with deleteAttempt := fun n => if n < 2 then .error (.other "busy") else .ok () }

/-- A tracked resource whose remote instance is absent. -/
def d4 : ResourceData := { id := "inst-4" }

/-- Spec §8 scenario: zone empty, subnet-A supplied (storage 10, class
"small", 3 replicas). -/
def d5a : ResourceData :=
  { account_password := "pw", db_instance_storage := 10, db_instance_cls := "small",
    replication_factor := some 3, zone_id := "", vswitch_id := "subnet-A" }

/-- Multi-zone scenario: declared zone is a multi-zone group whose
parenthesized suffix set contains subnet-A's zone suffix ("z1" ends in 1). -/
def d5b : ResourceData := { d5a with zone_id := "z-MAZ(1,9)" }

/-- Plain-zone mismatch scenario: declared zone z2, subnet-A lives in z1. -/
def d6 : ResourceData := { account_password := "pw", zone_id := "z2", vswitch_id := "subnet-A" }

/-- Prior state for the allowed-IP scenarios. -/
def d7old : ResourceData := { security_ip_list := ["1.1.1.1"] }

/-- Desired state whose allowed-IP set is non-empty but joins to the empty
string (the set containing only the empty string). -/
def d7new : ResourceData := { security_ip_list := [""] }

/-- An unchanged tracked resource for the frame claim. -/
def d8 : ResourceData := { id := "inst-8", name := "n", db_instance_storage := 10 }

/-- Desired state for the first-reconciliation scenario: only the backup
window is set. -/
def d9new : ResourceData := { backup_time := "03:00Z-04:00Z" }

/-- Configuration for the identifier-invariant scenario. -/
def dC10 : ResourceData := { account_password := "pw", db_instance_storage := 10 }

/-- Environment whose post-create poll times out. -/
def envC10 : Env := { testEnv with waitCreate := .error (.other "timeout") }

/-- The request the builder produces from `dC10` under `envC10`. -/
def reqC10 : CreateDBInstanceRequest :=
  { regionId := "r", engineVersion := "", engine := "MongoDB", dbInstanceStorage := 10,
    dbInstanceCls := "", dbInstanceDescription := "", accountPassword := "pw", zoneId := "",
    storageEngine := "", replicationFactor := "", networkType := Classic, vSwitchId := "",
    vpcId := "", chargeType := "", period := none, securityIPList := LOCAL_HOST_IP }

/-- Members of a sequential composition's trace come from one of the two
composed groups. -/
theorem mem_andThen {p q : StepResult} {c : RemoteCall} (h : c ∈ (andThen p q).2) :
    c ∈ p.2 ∨ c ∈ q.2 := by
  rcases p with ⟨r, l⟩
  cases r with
  | error e => exact Or.inl h
  | ok u =>
    rcases List.mem_append.mp h with h1 | h2
    · exact Or.inl h1
    · exact Or.inr h2

/-- A successful sequential composition decomposes into two successes with
concatenated traces. -/
theorem andThen_ok {p q : StepResult} (h : (andThen p q).1 = .ok ()) :
    p.1 = .ok () ∧ q.1 = .ok () ∧ (andThen p q).2 = p.2 ++ q.2 := by
  rcases p with ⟨r, l⟩
  cases r with
  | error e => exact absurd h (by simp [andThen])
  | ok u => exact ⟨rfl, h, rfl⟩

/-- The backup-policy group only ever issues the backup-policy call. -/
theorem backupPolicyGroup_mem {env : Env} {old d : ResourceData} {c : RemoteCall}
    (h : c ∈ (backupPolicyGroup env old d).2) : c = RemoteCall.modifyBackupPolicy := by
  unfold backupPolicyGroup at h
  split at h
  · simpa using h
  · simp at h

/-- The maintenance-window group only ever issues the maintain-time call. -/
theorem maintainTimeGroup_mem {env : Env} {old d : ResourceData} {c : RemoteCall}
    (h : c ∈ (maintainTimeGroup env old d).2) :
    c = RemoteCall.modifyMaintainTime d.maintain_start_time d.maintain_end_time := by
  unfold maintainTimeGroup at h
  split at h
  · simpa using h
  · simp at h

/-- The display-name group only ever issues the description call. -/
theorem nameGroup_mem {env : Env} {old d : ResourceData} {c : RemoteCall}
    (h : c ∈ (nameGroup env old d).2) : c = RemoteCall.modifyDescription d.name := by
  unfold nameGroup at h
  split at h
  · simpa using h
  · simp at h

/-- The allowed-IP group only ever issues the security-IP call. -/
theorem securityIpsGroup_mem {env : Env} {old d : ResourceData} {c : RemoteCall}
    (h : c ∈ (securityIpsGroup env old d).2) :
    c = RemoteCall.modifySecurityIps (computeUpdateSecurityIpStr d) := by
  unfold securityIpsGroup at h
  split at h
  · simpa using h
  · simp at h

/-- The update-side credential resolution only ever issues the decrypt
call, and only on the configured ciphertext. -/
theorem resolveUpdatePassword_mem {env : Env} {d : ResourceData} {c : RemoteCall}
    (h : c ∈ (resolveUpdatePassword env d).2) :
    c = RemoteCall.decrypt d.kms_encrypted_password := by
  unfold resolveUpdatePassword at h
  split at h
  · simp at h
  · simpa using h

/-- The credential group only ever issues a decrypt or a password-reset
call. -/
theorem passwordGroup_mem {env : Env} {old d : ResourceData} {c : RemoteCall}
    (h : c ∈ (passwordGroup env old d).2) :
    c = RemoteCall.decrypt d.kms_encrypted_password
      ∨ ∃ pw, c = RemoteCall.resetAccountPassword pw := by
  unfold passwordGroup at h
  split at h
  · split at h
    · rename_i e l heq
      refine Or.inl (@resolveUpdatePassword_mem env d c ?_)
      rw [heq]
      exact h
    · rename_i pw l heq
      split at h
      all_goals
        rcases List.mem_append.mp h with h1 | h2
        · refine Or.inl (@resolveUpdatePassword_mem env d c ?_)
          rw [heq]
          exact h1
        · exact Or.inr ⟨pw, by simpa using h2⟩
  · simp at h

/-- The groups run before the new-resource check only issue backup-policy
and maintain-time calls. -/
theorem preGroups_mem {env : Env} {old d : ResourceData} {c : RemoteCall}
    (h : c ∈ (preGroups env old d).2) :
    c = RemoteCall.modifyBackupPolicy
      ∨ c = RemoteCall.modifyMaintainTime d.maintain_start_time d.maintain_end_time := by
  unfold preGroups at h
  rcases mem_andThen h with h | h
  · exact Or.inl (backupPolicyGroup_mem h)
  · exact Or.inr (maintainTimeGroup_mem h)

/-- Dispatch of a full-group-sequence trace member to its source group. -/
theorem updateGroupsAll_mem {env : Env} {old d : ResourceData} {c : RemoteCall}
    (h : c ∈ (updateGroupsAll env old d).2) :
    c ∈ (preGroups env old d).2 ∨ c ∈ (nameGroup env old d).2
      ∨ c ∈ (securityIpsGroup env old d).2 ∨ c ∈ (passwordGroup env old d).2
      ∨ c ∈ (capacityGroup env old d).2 := by
  unfold updateGroupsAll at h
  rcases mem_andThen h with h | h
  · exact Or.inl h
  rcases mem_andThen h with h | h
  · exact Or.inr (Or.inl h)
  rcases mem_andThen h with h | h
  · exact Or.inr (Or.inr (Or.inl h))
  rcases mem_andThen h with h | h
  · exact Or.inr (Or.inr (Or.inr (Or.inl h)))
  · exact Or.inr (Or.inr (Or.inr (Or.inr h)))

/-- A member of the Update handler's trace comes either from the group
sequence or from the final Read. -/
theorem update_mem {env : Env} {old d : ResourceData} {isNew : Bool} {c : RemoteCall}
    (h : c ∈ (resourceAlicloudMongoDBInstanceUpdate env old d isNew).2.2) :
    c ∈ (if isNew then preGroups env old d else updateGroupsAll env old d).2
      ∨ c ∈ (resourceAlicloudMongoDBInstanceRead env d).2.2 := by
  unfold resourceAlicloudMongoDBInstanceUpdate at h
  cases hg : (if isNew then preGroups env old d else updateGroupsAll env old d) with
  | mk r l =>
    rw [hg] at h
    cases r with
    | error e => exact Or.inl h
    | ok u =>
      rcases List.mem_append.mp h with h1 | h2
      · exact Or.inl h1
      · exact Or.inr h2

/-- Every call issued by the Read handler is a read call. -/
theorem read_log_readonly (env : Env) (d : ResourceData) :
    ∀ c ∈ (resourceAlicloudMongoDBInstanceRead env d).2.2, c.isReadCall = true := by
  intro c hc
  unfold resourceAlicloudMongoDBInstanceRead at hc
  repeat' split at hc
  all_goals simp only [List.mem_cons, List.mem_singleton, List.not_mem_nil, or_false] at hc
  all_goals rcases hc with rfl | hc
  any_goals rfl
  all_goals rcases hc with rfl | hc
  any_goals rfl
  all_goals rcases hc with rfl | hc
  all_goals rfl

/-- A read call is not a mutating call. -/
theorem isReadCall_not_mutating {c : RemoteCall} (h : c.isReadCall = true) :
    c.isMutating = false := by
  cases c <;> first | rfl | exact absurd h (by simp [RemoteCall.isReadCall])

/-- A read call is not the modify-spec call. -/
theorem isReadCall_not_spec {c : RemoteCall} (h : c.isReadCall = true) :
    c.isModifySpec = false := by
  cases c <;> first | rfl | exact absurd h (by simp [RemoteCall.isReadCall])

/-- A read call is allowed during the first reconciliation pass. -/
theorem isReadCall_firstPassAllowed {c : RemoteCall} (h : c.isReadCall = true) :
    c.isFirstPassAllowed = true := by
  cases c <;> first | rfl | exact absurd h (by simp [RemoteCall.isReadCall])

/-- The backup-fields mirror does not touch the identity slot. -/
theorem mirrorBackupFields_id (d : ResourceData) (bp : BackupPolicy) :
    (mirrorBackupFields d bp).id = d.id := rfl

/-- The instance-fields mirror does not touch the identity slot. -/
theorem mirrorInstanceFields_id (d : ResourceData) (inst : ObservedInstance)
    (ips : List String) : (mirrorInstanceFields d inst ips).id = d.id := by
  unfold mirrorInstanceFields
  split <;> rfl

/-- Read either preserves the identity slot or clears it, and clears it only
when the describe call reported the instance as absent. -/
theorem read_id (env : Env) (d : ResourceData) :
    (resourceAlicloudMongoDBInstanceRead env d).2.1.id = d.id
    ∨ ((resourceAlicloudMongoDBInstanceRead env d).2.1.id = ""
        ∧ env.describeInstance d.id = .error .notFound) := by
  unfold resourceAlicloudMongoDBInstanceRead
  cases hd : env.describeInstance d.id with
  | error e =>
    cases e with
    | notFound => exact Or.inr ⟨rfl, rfl⟩
    | other m => exact Or.inl rfl
  | ok inst =>
    cases hb : env.describeBackupPolicy d.id with
    | error e => exact Or.inl rfl
    | ok bp =>
      cases hi : env.getSecurityIps d.id with
      | error e => exact Or.inl (mirrorBackupFields_id d bp)
      | ok ips =>
        exact Or.inl ((mirrorInstanceFields_id (mirrorBackupFields d bp) inst ips).trans
          (mirrorBackupFields_id d bp))

/-- A failing Read leaves the identity slot untouched. -/
theorem read_error_id (env : Env) (d : ResourceData) {e : ApiErr}
    (h : (resourceAlicloudMongoDBInstanceRead env d).1 = .error e) :
    (resourceAlicloudMongoDBInstanceRead env d).2.1.id = d.id := by
  unfold resourceAlicloudMongoDBInstanceRead at h ⊢
  cases hd : env.describeInstance d.id with
  | error e' =>
    rw [hd] at h
    cases e' with
    | notFound => exact absurd h (by simp [NotFoundError])
    | other m => exact rfl
  | ok inst =>
    rw [hd] at h
    cases hb : env.describeBackupPolicy d.id with
    | error e' => exact rfl
    | ok bp =>
      rw [hb] at h
      cases hi : env.getSecurityIps d.id with
      | error e' => exact mirrorBackupFields_id d bp
      | ok ips =>
        rw [hi] at h
        exact absurd h (by simp)

/-- Update either preserves the identity slot or clears it, and clears it
only when the final Read observed an absent instance. -/
theorem update_id (env : Env) (old d : ResourceData) (isNew : Bool) :
    (resourceAlicloudMongoDBInstanceUpdate env old d isNew).2.1.id = d.id
    ∨ ((resourceAlicloudMongoDBInstanceUpdate env old d isNew).2.1.id = ""
        ∧ env.describeInstance d.id = .error .notFound) := by
  unfold resourceAlicloudMongoDBInstanceUpdate
  cases hg : (if isNew then preGroups env old d else updateGroupsAll env old d) with
  | mk r l =>
    cases r with
    | error e => exact Or.inl rfl
    | ok u => exact read_id env d

/-- A failing Update leaves the identity slot untouched. -/
theorem update_error_id (env : Env) (old d : ResourceData) (isNew : Bool) {e : ApiErr}
    (h : (resourceAlicloudMongoDBInstanceUpdate env old d isNew).1 = .error e) :
    (resourceAlicloudMongoDBInstanceUpdate env old d isNew).2.1.id = d.id := by
  unfold resourceAlicloudMongoDBInstanceUpdate at h ⊢
  cases hg : (if isNew then preGroups env old d else updateGroupsAll env old d) with
  | mk r l =>
    rw [hg] at h
    cases r with
    | error e' => exact rfl
    | ok u => exact read_error_id env d h

/-- A modify-spec call can only appear in the capacity group's trace after
the pre-submission poll succeeded. -/
theorem capacityGroup_spec_needs_wait {env : Env} {old d : ResourceData} {c : RemoteCall}
    (h : c ∈ (capacityGroup env old d).2) (hs : c.isModifySpec = true) :
    env.wait 0 = .ok () := by
  unfold capacityGroup at h
  split at h
  · cases hw : env.wait 0 with
    | ok u => cases u; rfl
    | error e =>
      rw [hw] at h
      simp only [List.mem_singleton] at h
      subst h
      exact absurd hs (by simp [specWaitCall, RemoteCall.isModifySpec])
  · simp at h

/-- A capacity group that succeeded (with the change predicate holding)
issued exactly poll, modify-spec, poll, poll. -/
theorem capacityGroup_ok_log {env : Env} {old d : ResourceData}
    (hcap : capCond old d = true) (hok : (capacityGroup env old d).1 = .ok ()) :
    (capacityGroup env old d).2 = [specWaitCall, specCall d, specWaitCall, specWaitCall] := by
  unfold capacityGroup at hok ⊢
  rw [hcap] at hok ⊢
  simp only [if_true] at hok ⊢
  cases h0 : env.wait 0 with
  | error e => rw [h0] at hok; exact Except.noConfusion hok
  | ok u0 =>
    rw [h0] at hok
    cases hs : env.modifySpec with
    | error e => rw [hs] at hok; exact Except.noConfusion hok
    | ok u1 =>
      rw [hs] at hok
      cases h1 : env.wait 1 with
      | error e => rw [h1] at hok; exact Except.noConfusion hok
      | ok u2 =>
        rw [h1] at hok
        cases h2 : env.wait 2 <;> rfl

/-- If the first k delete attempts fail retryably and attempt k succeeds
(within budget), the retry loop succeeds after exactly k+1 delete calls. -/
theorem retryDelete_stops_ok (env : Env) :
    ∀ (k fuel n : Nat), k ≤ fuel →
    (∀ i, i < k → ∃ e, env.deleteAttempt (n + i) = .error e ∧ NotFoundError e = false) →
    env.deleteAttempt (n + k) = .ok () →
    retryDelete env fuel n = (.ok (), List.replicate (k + 1) RemoteCall.deleteDBInstance) := by
  intro k
  induction k with
  | zero =>
    intro fuel n hk herr hok
    rw [Nat.add_zero] at hok
    unfold retryDelete
    rw [hok]
    rfl
  | succ k ih =>
    intro fuel n hk herr hok
    obtain ⟨e, he, hnf⟩ := herr 0 (Nat.succ_pos k)
    rw [Nat.add_zero] at he
    cases fuel with
    | zero => omega
    | succ fuel' =>
      have hrec := ih fuel' (n + 1) (by omega)
        (fun i hi => by
          have h := herr (i + 1) (by omega)
          rwa [show n + (i + 1) = n + 1 + i by omega] at h)
        (by rwa [show n + 1 + k = n + (k + 1) by omega])
      unfold retryDelete
      simp only [he, hnf, Bool.false_eq_true, if_false, hrec, List.replicate_succ]

/-- If the first k delete attempts fail retryably and attempt k reports
"not found" (within budget), the retry loop stops with that error after
exactly k+1 delete calls. -/
theorem retryDelete_stops_notFound (env : Env) :
    ∀ (k fuel n : Nat), k ≤ fuel →
    (∀ i, i < k → ∃ e, env.deleteAttempt (n + i) = .error e ∧ NotFoundError e = false) →
    env.deleteAttempt (n + k) = .error .notFound →
    retryDelete env fuel n
      = (.error .notFound, List.replicate (k + 1) RemoteCall.deleteDBInstance) := by
  intro k
  induction k with
  | zero =>
    intro fuel n hk herr hnf
    rw [Nat.add_zero] at hnf
    unfold retryDelete
    rw [hnf]
    rfl
  | succ k ih =>
    intro fuel n hk herr hnf
    obtain ⟨e, he, henf⟩ := herr 0 (Nat.succ_pos k)
    rw [Nat.add_zero] at he
    cases fuel with
    | zero => omega
    | succ fuel' =>
      have hrec := ih fuel' (n + 1) (by omega)
        (fun i hi => by
          have h := herr (i + 1) (by omega)
          rwa [show n + (i + 1) = n + 1 + i by omega] at h)
        (by rwa [show n + 1 + k = n + (k + 1) by omega])
      unfold retryDelete
      simp only [he, henf, Bool.false_eq_true, if_false, hrec, List.replicate_succ]

/-- C1: the spec's credential-resolution policy — use clear text when
present; otherwise decrypt a present KMS ciphertext and use its plaintext;
with neither present make no decryption call — is violated by the source: a
present ciphertext is never decrypted (the request credential stays empty,
no decrypt call), and with neither credential present the builder and the
update credential group both call the decryption service on the empty
ciphertext and use whatever it returns. -/
theorem c1_credential_resolution_bug :
    ((buildMongoDBCreateRequest testEnv d1a).2 = []
      ∧ Except.map (fun r => r.accountPassword) (buildMongoDBCreateRequest testEnv d1a).1
          = .ok "")
  ∧ ((buildMongoDBCreateRequest testEnv d1b).2 = [RemoteCall.decrypt ""]
      ∧ Except.map (fun r => r.accountPassword) (buildMongoDBCreateRequest testEnv d1b).1
          = .ok "PT:")
  ∧ (passwordGroup testEnv d1old emptyResourceData).2
      = [RemoteCall.decrypt "", RemoteCall.resetAccountPassword "PT:"] := by
  refine ⟨⟨by decide, by decide⟩, ⟨by decide, by decide⟩, by decide⟩

/-- C2: for an update with a capacity change, any modify-spec submission is
preceded by a successful poll-to-Running; a failed pre-submission poll means
modify-spec is never submitted; and a fully successful update's trace
contains poll, modify-spec, poll, poll contiguously, followed by the final
resync Read. -/
theorem c2_capacity_change_waits (env : Env) (old d : ResourceData)
    (hcap : capCond old d = true) :
    (∀ c ∈ (resourceAlicloudMongoDBInstanceUpdate env old d false).2.2,
        RemoteCall.isModifySpec c = true → env.wait 0 = .ok ())
  ∧ (∀ e, env.wait 0 = .error e →
        ∀ c ∈ (resourceAlicloudMongoDBInstanceUpdate env old d false).2.2,
          RemoteCall.isModifySpec c = false)
  ∧ ((resourceAlicloudMongoDBInstanceUpdate env old d false).1 = .ok () →
      ∃ l₁, (resourceAlicloudMongoDBInstanceUpdate env old d false).2.2
        = l₁ ++ [specWaitCall, specCall d, specWaitCall, specWaitCall]
            ++ (resourceAlicloudMongoDBInstanceRead env d).2.2) := by
  have hdisp : ∀ c ∈ (resourceAlicloudMongoDBInstanceUpdate env old d false).2.2,
      RemoteCall.isModifySpec c = true → env.wait 0 = .ok () := by
    intro c hc hs
    rcases update_mem hc with h | h
    · rcases updateGroupsAll_mem h with h | h | h | h | h
      · rcases preGroups_mem h with rfl | rfl
        · exact absurd hs (by simp [RemoteCall.isModifySpec])
        · exact absurd hs (by simp [RemoteCall.isModifySpec])
      · rw [nameGroup_mem h] at hs
        exact absurd hs (by simp [RemoteCall.isModifySpec])
      · rw [securityIpsGroup_mem h] at hs
        exact absurd hs (by simp [RemoteCall.isModifySpec])
      · rcases passwordGroup_mem h with rfl | ⟨pw, rfl⟩
        · exact absurd hs (by simp [RemoteCall.isModifySpec])
        · exact absurd hs (by simp [RemoteCall.isModifySpec])
      · exact capacityGroup_spec_needs_wait h hs
    · rw [isReadCall_not_spec (read_log_readonly env d c h)] at hs
      exact absurd hs (by simp)
  refine ⟨hdisp, ?_, ?_⟩
  · intro e he c hc
    cases hsb : RemoteCall.isModifySpec c with
    | false => rfl
    | true =>
      have h0 := hdisp c hc hsb
      rw [he] at h0
      exact Except.noConfusion h0
  · intro hok
    unfold resourceAlicloudMongoDBInstanceUpdate at hok ⊢
    cases hg : updateGroupsAll env old d with
    | mk r l =>
      rw [hg] at hok
      cases r with
      | error e => exact Except.noConfusion hok
      | ok u =>
        have hga : (updateGroupsAll env old d).1 = .ok () := by rw [hg]
        unfold updateGroupsAll at hga
        obtain ⟨hpre, hrest, hl₀⟩ := andThen_ok hga
        obtain ⟨hname, hrest2, hl₁⟩ := andThen_ok hrest
        obtain ⟨hips, hrest3, hl₂⟩ := andThen_ok hrest2
        obtain ⟨hpw, hcapok, hl₃⟩ := andThen_ok hrest3
        have hcapl := capacityGroup_ok_log hcap hcapok
        refine ⟨(preGroups env old d).2 ++ (nameGroup env old d).2
          ++ (securityIpsGroup env old d).2 ++ (passwordGroup env old d).2, ?_⟩
        have hl : l = (updateGroupsAll env old d).2 := by rw [hg]
        rw [hl]
        unfold updateGroupsAll
        rw [hl₀, hl₁, hl₂, hl₃, hcapl]
        simp [List.append_assoc]

/-- C3: the delete retry loop has a 50-minute budget; within the budget it
retries the delete call on any error other than "not found"; a "not found"
at any attempt (including the first) makes Delete return success with no
further polling; once the delete call succeeds, Delete issues the
poll-until-no-current-state call and propagates its outcome. -/
theorem c3_delete_retry_and_poll (env : Env) (fuel k : Nat) (hk : k ≤ fuel)
    (herr : ∀ i, i < k → ∃ e, env.deleteAttempt i = .error e ∧ NotFoundError e = false) :
    (env.deleteAttempt k = .error .notFound →
      resourceAlicloudMongoDBInstanceDelete env fuel
        = (.ok (), List.replicate (k + 1) RemoteCall.deleteDBInstance))
  ∧ (env.deleteAttempt k = .ok () → env.waitDelete = .ok () →
      resourceAlicloudMongoDBInstanceDelete env fuel
        = (.ok (), List.replicate (k + 1) RemoteCall.deleteDBInstance ++ [deleteWaitCall]))
  ∧ (env.deleteAttempt k = .ok () → ∀ e, env.waitDelete = .error e →
      resourceAlicloudMongoDBInstanceDelete env fuel
        = (.error e, List.replicate (k + 1) RemoteCall.deleteDBInstance ++ [deleteWaitCall]))
  ∧ deleteRetryTimeoutMinutes = 50 := by
  have herr0 : ∀ i, i < k → ∃ e, env.deleteAttempt (0 + i) = .error e ∧ NotFoundError e = false := by
    intro i hi
    rw [Nat.zero_add]
    exact herr i hi
  refine ⟨?_, ?_, ?_, rfl⟩
  · intro hnf
    have h := retryDelete_stops_notFound env k fuel 0 hk herr0 (by rwa [Nat.zero_add])
    unfold resourceAlicloudMongoDBInstanceDelete
    rw [h]
    rfl
  · intro hok hw
    have h := retryDelete_stops_ok env k fuel 0 hk herr0 (by rwa [Nat.zero_add])
    unfold resourceAlicloudMongoDBInstanceDelete
    rw [h, hw]
  · intro hok e hw
    have h := retryDelete_stops_ok env k fuel 0 hk herr0 (by rwa [Nat.zero_add])
    unfold resourceAlicloudMongoDBInstanceDelete
    rw [h, hw]

/-- C3 witness: a first-attempt "not found" yields success with one delete
call and no poll; two transient failures followed by a success yield three
delete calls and the terminal poll. -/
theorem c3_delete_retry_and_poll_witness :
    resourceAlicloudMongoDBInstanceDelete envDel3a 7
      = (.ok (), List.replicate 1 RemoteCall.deleteDBInstance)
    ∧ resourceAlicloudMongoDBInstanceDelete envDel3b 7
      = (.ok (), List.replicate 3 RemoteCall.deleteDBInstance ++ [deleteWaitCall]) :=
  ⟨(c3_delete_retry_and_poll envDel3a 7 0 (by omega)
      (fun i hi => absurd hi (by omega))).1 rfl,
   (c3_delete_retry_and_poll envDel3b 7 2 (by omega)
      (fun i hi => ⟨.other "busy", by interval_cases i <;> rfl, rfl⟩)).2.1 rfl rfl⟩

/-- C4: a Read whose describe call reports the instance absent clears the
identity and succeeds; a second Read on the cleared resource is a no-op;
and a Read fails only on a describe failure that is not "not found". -/
theorem c4_read_not_found_clears (env : Env) (d : ResourceData)
    (habsent : env.describeInstance d.id = .error .notFound)
    (hempty : env.describeInstance "" = .error .notFound) :
    resourceAlicloudMongoDBInstanceRead env d
      = (.ok (), { d with id := "" }, [.describeInstance d.id])
  ∧ resourceAlicloudMongoDBInstanceRead env { d with id := "" }
      = (.ok (), { d with id := "" }, [.describeInstance ""])
  ∧ (∀ d' e, env.describeInstance d'.id = .error e → NotFoundError e = false →
      (resourceAlicloudMongoDBInstanceRead env d').1 = .error e) := by
  refine ⟨?_, ?_, ?_⟩
  · unfold resourceAlicloudMongoDBInstanceRead
    rw [habsent]
    rfl
  · unfold resourceAlicloudMongoDBInstanceRead
    rw [show ({ d with id := "" } : ResourceData).id = "" from rfl, hempty]
    rfl
  · intro d' e h hnf
    unfold resourceAlicloudMongoDBInstanceRead
    rw [h]
    cases e with
    | notFound => exact absurd hnf (by simp [NotFoundError])
    | other m => rfl

/-- C4 witness at a concrete absent instance. -/
theorem c4_read_not_found_clears_witness :
    resourceAlicloudMongoDBInstanceRead testEnv d4
      = (.ok (), { d4 with id := "" }, [.describeInstance d4.id])
    ∧ resourceAlicloudMongoDBInstanceRead testEnv { d4 with id := "" }
      = (.ok (), { d4 with id := "" }, [.describeInstance ""]) :=
  ⟨(c4_read_not_found_clears testEnv d4 rfl rfl).1,
   (c4_read_not_found_clears testEnv d4 rfl rfl).2.1⟩

/-- C2 witness: the spec §8 capacity scenario (storage 10 → 20) under the
all-success environment. -/
theorem c2_capacity_change_waits_witness :
    capCond d2old d2new = true
    ∧ ((∀ c ∈ (resourceAlicloudMongoDBInstanceUpdate testEnv d2old d2new false).2.2,
          RemoteCall.isModifySpec c = true → testEnv.wait 0 = .ok ())
      ∧ (∀ e, testEnv.wait 0 = .error e →
          ∀ c ∈ (resourceAlicloudMongoDBInstanceUpdate testEnv d2old d2new false).2.2,
            RemoteCall.isModifySpec c = false)
      ∧ ((resourceAlicloudMongoDBInstanceUpdate testEnv d2old d2new false).1 = .ok () →
          ∃ l₁, (resourceAlicloudMongoDBInstanceUpdate testEnv d2old d2new false).2.2
            = l₁ ++ [specWaitCall, specCall d2new, specWaitCall, specWaitCall]
                ++ (resourceAlicloudMongoDBInstanceRead testEnv d2new).2.2)) :=
  ⟨by decide, c2_capacity_change_waits testEnv d2old d2new (by decide)⟩

/-- With a vswitch whose lookup succeeds and an empty declared zone, the
network resolution adopts the vswitch's zone and VPC placement. -/
theorem resolveNetwork_empty_zone (env : Env) (d : ResourceData) (vsw : VSwitch)
    (hvs : Trim d.vswitch_id ≠ "")
    (hlook : env.describeVSwitch (Trim d.vswitch_id) = .ok vsw)
    (hz : d.zone_id = "") :
    resolveNetwork env d
      = (.ok { zoneId := vsw.zoneId, networkType := goToUpper Vpc,
               vSwitchId := Trim d.vswitch_id, vpcId := vsw.vpcId },
         [.describeVSwitch (Trim d.vswitch_id)]) := by
  have h1 : (Trim d.vswitch_id == "") = false := beq_eq_false_iff_ne.mpr hvs
  unfold resolveNetwork
  rw [h1, hlook, hz]
  rfl

/-- With a vswitch whose lookup succeeds and a declared multi-zone group
whose parenthesized suffix set contains the vswitch zone's suffix, the
network resolution succeeds, keeps the declared group, and adopts the
vswitch's VPC placement. -/
theorem resolveNetwork_multi_zone (env : Env) (d : ResourceData) (vsw : VSwitch)
    (hvs : Trim d.vswitch_id ≠ "")
    (hlook : env.describeVSwitch (Trim d.vswitch_id) = .ok vsw)
    (hm1 : goContains d.zone_id MULTI_IZ_SYMBOL = true)
    (hm2 : goContains (extractParenSet d.zone_id) (lastCharStr vsw.zoneId) = true) :
    resolveNetwork env d
      = (.ok { zoneId := d.zone_id, networkType := goToUpper Vpc,
               vSwitchId := Trim d.vswitch_id, vpcId := vsw.vpcId },
         [.describeVSwitch (Trim d.vswitch_id)]) := by
  have h1 : (Trim d.vswitch_id == "") = false := beq_eq_false_iff_ne.mpr hvs
  have hz : (d.zone_id == "") = false := by
    cases hbe : d.zone_id == "" with
    | false => rfl
    | true =>
      have hzz : d.zone_id = "" := by simpa using hbe
      rw [hzz] at hm1
      exact absurd hm1 (by decide)
  unfold resolveNetwork
  simp [h1, hlook, hz, hm1, hm2]

/-- With a vswitch whose lookup succeeds and a declared plain zone different
from the vswitch's zone, the network resolution fails with the
zone-mismatch message. -/
theorem resolveNetwork_plain_mismatch (env : Env) (d : ResourceData) (vsw : VSwitch)
    (hvs : Trim d.vswitch_id ≠ "")
    (hlook : env.describeVSwitch (Trim d.vswitch_id) = .ok vsw)
    (hplain : goContains d.zone_id MULTI_IZ_SYMBOL = false)
    (hz : d.zone_id ≠ "") (hne : d.zone_id ≠ vsw.zoneId) :
    resolveNetwork env d
      = (.error (.other (zoneMismatchMsg vsw.vSwitchId d.zone_id)),
         [.describeVSwitch (Trim d.vswitch_id)]) := by
  have h1 : (Trim d.vswitch_id == "") = false := beq_eq_false_iff_ne.mpr hvs
  have h2 : (d.zone_id == "") = false := beq_eq_false_iff_ne.mpr hz
  have h3 : (d.zone_id != vsw.zoneId) = true := bne_iff_ne.mpr hne
  unfold resolveNetwork
  simp [h1, hlook, h2, hplain, h3]

/-- The create-side credential resolution only ever issues the decrypt
call, and only on the configured ciphertext. -/
theorem resolveCreatePassword_mem {env : Env} {d : ResourceData} {c : RemoteCall}
    (h : c ∈ (resolveCreatePassword env d).2) :
    c = RemoteCall.decrypt d.kms_encrypted_password := by
  unfold resolveCreatePassword at h
  split at h
  · split at h
    · simpa using h
    · simp at h
  · simp at h

/-- C5: for a configuration with a subnet whose lookup succeeds (and a
credential step that succeeds), an empty declared zone makes the builder
succeed, adopt the subnet's resolved zone, and adopt the subnet's network
(VPC, vswitch, vpc); a declared multi-zone group whose parenthesized suffix
set contains the resolved zone's suffix makes the builder succeed and adopt
the subnet's network. -/
theorem c5_subnet_zone_adoption (env : Env) (d : ResourceData) (vsw : VSwitch)
    (pw : String) (lpw : List RemoteCall)
    (hcred : resolveCreatePassword env d = (.ok pw, lpw))
    (hvs : Trim d.vswitch_id ≠ "")
    (hlook : env.describeVSwitch (Trim d.vswitch_id) = .ok vsw) :
    (d.zone_id = "" →
      buildMongoDBCreateRequest env d
        = (.ok (assembleCreateRequest env d pw
            { zoneId := vsw.zoneId, networkType := goToUpper Vpc,
              vSwitchId := Trim d.vswitch_id, vpcId := vsw.vpcId }),
           lpw ++ [.describeVSwitch (Trim d.vswitch_id)])
      ∧ (assembleCreateRequest env d pw
          { zoneId := vsw.zoneId, networkType := goToUpper Vpc,
            vSwitchId := Trim d.vswitch_id, vpcId := vsw.vpcId }).zoneId = vsw.zoneId)
  ∧ (goContains d.zone_id MULTI_IZ_SYMBOL = true →
     goContains (extractParenSet d.zone_id) (lastCharStr vsw.zoneId) = true →
      buildMongoDBCreateRequest env d
        = (.ok (assembleCreateRequest env d pw
            { zoneId := d.zone_id, networkType := goToUpper Vpc,
              vSwitchId := Trim d.vswitch_id, vpcId := vsw.vpcId }),
           lpw ++ [.describeVSwitch (Trim d.vswitch_id)])) := by
  constructor
  · intro hz
    refine ⟨?_, rfl⟩
    unfold buildMongoDBCreateRequest
    rw [hcred, resolveNetwork_empty_zone env d vsw hvs hlook hz]
  · intro hm1 hm2
    unfold buildMongoDBCreateRequest
    rw [hcred, resolveNetwork_multi_zone env d vsw hvs hlook hm1 hm2]

/-- C5 witness: the spec §8 scenario (zone empty, subnet-A in z1) and the
multi-zone scenario (group suffix set contains z1's suffix). -/
theorem c5_subnet_zone_adoption_witness :
    (buildMongoDBCreateRequest testEnv d5a
        = (.ok (assembleCreateRequest testEnv d5a "pw"
            { zoneId := testVsw.zoneId, networkType := goToUpper Vpc,
              vSwitchId := Trim d5a.vswitch_id, vpcId := testVsw.vpcId }),
           [] ++ [.describeVSwitch (Trim d5a.vswitch_id)])
      ∧ (assembleCreateRequest testEnv d5a "pw"
          { zoneId := testVsw.zoneId, networkType := goToUpper Vpc,
            vSwitchId := Trim d5a.vswitch_id, vpcId := testVsw.vpcId }).zoneId
          = testVsw.zoneId)
    ∧ buildMongoDBCreateRequest testEnv d5b
        = (.ok (assembleCreateRequest testEnv d5b "pw"
            { zoneId := d5b.zone_id, networkType := goToUpper Vpc,
              vSwitchId := Trim d5b.vswitch_id, vpcId := testVsw.vpcId }),
           [] ++ [.describeVSwitch (Trim d5b.vswitch_id)]) :=
  ⟨(c5_subnet_zone_adoption testEnv d5a testVsw "pw" []
      (by decide) (by decide) (by decide)).1 (by decide),
   (c5_subnet_zone_adoption testEnv d5b testVsw "pw" []
      (by decide) (by decide) (by decide)).2 (by decide) (by decide)⟩

/-- C6: for a configuration with a declared plain zone and a subnet that
resolves to a different zone, the builder fails with the zone-mismatch
message naming the subnet and the zone, and the Create handler aborts
without issuing the create call. -/
theorem c6_zone_mismatch_validation (env : Env) (d : ResourceData) (vsw : VSwitch)
    (pw : String) (lpw : List RemoteCall)
    (hcred : resolveCreatePassword env d = (.ok pw, lpw))
    (hvs : Trim d.vswitch_id ≠ "")
    (hlook : env.describeVSwitch (Trim d.vswitch_id) = .ok vsw)
    (hplain : goContains d.zone_id MULTI_IZ_SYMBOL = false)
    (hz : d.zone_id ≠ "") (hne : d.zone_id ≠ vsw.zoneId) :
    buildMongoDBCreateRequest env d
      = (.error (.other (zoneMismatchMsg vsw.vSwitchId d.zone_id)),
         lpw ++ [.describeVSwitch (Trim d.vswitch_id)])
  ∧ (resourceAlicloudMongoDBInstanceCreate env d).1
      = .error (.other (zoneMismatchMsg vsw.vSwitchId d.zone_id))
  ∧ (∀ c ∈ (resourceAlicloudMongoDBInstanceCreate env d).2.2,
      c ≠ RemoteCall.createDBInstance) := by
  have hbuild : buildMongoDBCreateRequest env d
      = (.error (.other (zoneMismatchMsg vsw.vSwitchId d.zone_id)),
         lpw ++ [.describeVSwitch (Trim d.vswitch_id)]) := by
    unfold buildMongoDBCreateRequest
    rw [hcred, resolveNetwork_plain_mismatch env d vsw hvs hlook hplain hz hne]
  refine ⟨hbuild, ?_, ?_⟩
  · unfold resourceAlicloudMongoDBInstanceCreate
    rw [hbuild]
  · intro c hc
    unfold resourceAlicloudMongoDBInstanceCreate at hc
    rw [hbuild] at hc
    rcases List.mem_append.mp hc with h | h
    · have hc' : c ∈ (resolveCreatePassword env d).2 := by rw [hcred]; exact h
      rw [resolveCreatePassword_mem hc']
      simp
    · have hcd : c = RemoteCall.describeVSwitch (Trim d.vswitch_id) := by simpa using h
      rw [hcd]
      simp

/-- C6 witness: declared zone z2 with subnet-A (zone z1). -/
theorem c6_zone_mismatch_validation_witness :
    buildMongoDBCreateRequest testEnv d6
      = (.error (.other (zoneMismatchMsg testVsw.vSwitchId d6.zone_id)),
         [] ++ [.describeVSwitch (Trim d6.vswitch_id)])
    ∧ (resourceAlicloudMongoDBInstanceCreate testEnv d6).1
        = .error (.other (zoneMismatchMsg testVsw.vSwitchId d6.zone_id)) :=
  ⟨(c6_zone_mismatch_validation testEnv d6 testVsw "pw" []
      (by decide) (by decide) (by decide) (by decide) (by decide) (by decide)).1,
   (c6_zone_mismatch_validation testEnv d6 testVsw "pw" []
      (by decide) (by decide) (by decide) (by decide) (by decide) (by decide)).2.1⟩

/-- C7 counterexample: the set containing only the empty string is a
non-empty allowed-IP set, yet the update security-IP group submits the
loopback default instead of the comma-delimited join (which is empty), so
the claim's "for a non-empty set, the string is the join" fails on the
update path. -/
theorem c7_security_ip_counterexample :
    d7new.security_ip_list ≠ []
    ∧ goJoin d7new.security_ip_list COMMA_SEPARATED = ""
    ∧ (securityIpsGroup testEnv d7old d7new).2
        = [RemoteCall.modifySecurityIps LOCAL_HOST_IP]
    ∧ computeUpdateSecurityIpStr d7new ≠ goJoin d7new.security_ip_list COMMA_SEPARATED := by
  refine ⟨by decide, by decide, by decide, by decide⟩

/-- C7 (amended): an empty allowed-IP set yields the loopback default both
in the create request and in the update group; a non-empty set yields the
comma-delimited join in the create request, and in the update group too
unless the join is the empty string, in which case the update group falls
back to the loopback default.  The create request and the update group both
use exactly these computed strings. -/
theorem c7_security_ip_policy (d : ResourceData) :
    (∀ env pw net, (assembleCreateRequest env d pw net).securityIPList
        = computeCreateSecurityIpStr d)
  ∧ (d.security_ip_list = [] →
      computeCreateSecurityIpStr d = LOCAL_HOST_IP
        ∧ computeUpdateSecurityIpStr d = LOCAL_HOST_IP)
  ∧ (d.security_ip_list ≠ [] →
      computeCreateSecurityIpStr d = goJoin d.security_ip_list COMMA_SEPARATED)
  ∧ (goJoin d.security_ip_list COMMA_SEPARATED ≠ "" →
      computeUpdateSecurityIpStr d = goJoin d.security_ip_list COMMA_SEPARATED)
  ∧ (goJoin d.security_ip_list COMMA_SEPARATED = "" →
      computeUpdateSecurityIpStr d = LOCAL_HOST_IP) := by
  refine ⟨fun env pw net => rfl, ?_, ?_, ?_, ?_⟩
  · intro h
    constructor
    · unfold computeCreateSecurityIpStr
      rw [h]
      rfl
    · unfold computeUpdateSecurityIpStr
      rw [h]
      rfl
  · intro h
    unfold computeCreateSecurityIpStr
    cases hl : d.security_ip_list with
    | nil => exact absurd hl h
    | cons a t => simp
  · intro h
    unfold computeUpdateSecurityIpStr
    rw [beq_eq_false_iff_ne.mpr h]
    rfl
  · intro h
    unfold computeUpdateSecurityIpStr
    rw [h]
    rfl

/-- C7 witness: the empty set and a two-entry set. -/
theorem c7_security_ip_policy_witness :
    (computeCreateSecurityIpStr emptyResourceData = LOCAL_HOST_IP
      ∧ computeUpdateSecurityIpStr emptyResourceData = LOCAL_HOST_IP)
    ∧ computeCreateSecurityIpStr d7old = goJoin d7old.security_ip_list COMMA_SEPARATED
    ∧ computeUpdateSecurityIpStr d7old = goJoin d7old.security_ip_list COMMA_SEPARATED :=
  ⟨(c7_security_ip_policy emptyResourceData).2.1 rfl,
   (c7_security_ip_policy d7old).2.2.1 (by decide),
   (c7_security_ip_policy d7old).2.2.2.1 (by decide)⟩

/-- C8: an update in which no watched field changed (prior state equals
desired state) issues exactly the final resync Read's calls and nothing
else, and none of the Read's calls is mutating. -/
theorem c8_no_change_no_mutation (env : Env) (d : ResourceData) :
    resourceAlicloudMongoDBInstanceUpdate env d d false
      = ((resourceAlicloudMongoDBInstanceRead env d).1,
         (resourceAlicloudMongoDBInstanceRead env d).2.1,
         (resourceAlicloudMongoDBInstanceRead env d).2.2)
  ∧ (resourceAlicloudMongoDBInstanceRead env d).2.2.all
      (fun c => !(RemoteCall.isMutating c)) = true := by
  constructor
  · unfold resourceAlicloudMongoDBInstanceUpdate updateGroupsAll preGroups backupPolicyGroup
      maintainTimeGroup nameGroup securityIpsGroup passwordGroup capacityGroup capCond andThen
    simp [bne_self_eq_false]
  · rw [List.all_eq_true]
    intro c hc
    have h := isReadCall_not_mutating (read_log_readonly env d c hc)
    simp [h]

/-- C9: a first-reconciliation update (new resource) issues only
backup-policy, maintain-time, and Read calls; when groups 1-2 succeed it
performs the final Read and returns its outcome, with the trace being the
two groups' calls followed by the Read's. -/
theorem c9_first_reconciliation_scope (env : Env) (old d : ResourceData) :
    (∀ c ∈ (resourceAlicloudMongoDBInstanceUpdate env old d true).2.2,
        c.isFirstPassAllowed = true)
  ∧ ((preGroups env old d).1 = .ok () →
      resourceAlicloudMongoDBInstanceUpdate env old d true
        = ((resourceAlicloudMongoDBInstanceRead env d).1,
           (resourceAlicloudMongoDBInstanceRead env d).2.1,
           (preGroups env old d).2 ++ (resourceAlicloudMongoDBInstanceRead env d).2.2)) := by
  constructor
  · intro c hc
    rcases update_mem hc with h | h
    · rcases @preGroups_mem env old d c h with rfl | rfl
      · rfl
      · rfl
    · exact isReadCall_firstPassAllowed (read_log_readonly env d c h)
  · intro hok
    unfold resourceAlicloudMongoDBInstanceUpdate
    cases hg : preGroups env old d with
    | mk r l =>
      rw [hg] at hok
      cases r with
      | error e => exact absurd hok (fun hh => Except.noConfusion hh)
      | ok u => rfl

/-- C9 witness: a first reconciliation that only sets the backup window. -/
theorem c9_first_reconciliation_scope_witness :
    resourceAlicloudMongoDBInstanceUpdate testEnv emptyResourceData d9new true
      = ((resourceAlicloudMongoDBInstanceRead testEnv d9new).1,
         (resourceAlicloudMongoDBInstanceRead testEnv d9new).2.1,
         (preGroups testEnv emptyResourceData d9new).2
           ++ (resourceAlicloudMongoDBInstanceRead testEnv d9new).2.2) :=
  (c9_first_reconciliation_scope testEnv emptyResourceData d9new).2 (by decide)

/-- C10: Create stores the identifier from the create response before the
post-create poll, so a poll timeout (the Create fails with the poll's
error) or a failing follow-up Update leaves the identifier assigned;
Update never reassigns the identifier — it preserves it or clears it, and
clears it only when the final Read observed an absent instance; Read
likewise preserves the identifier except to clear it on an absent
instance. -/
theorem c10_identifier_assignment (env : Env) (d : ResourceData)
    (req : CreateDBInstanceRequest) (l : List RemoteCall) (newId : String)
    (hb : buildMongoDBCreateRequest env d = (.ok req, l))
    (hc : env.createDBInstance req = .ok newId) :
    ((∀ e, env.waitCreate = .error e →
        (resourceAlicloudMongoDBInstanceCreate env d).2.1.id = newId
          ∧ (resourceAlicloudMongoDBInstanceCreate env d).1 = .error e)
      ∧ (∀ e, (resourceAlicloudMongoDBInstanceUpdate env emptyResourceData
            { d with id := newId } true).1 = .error e →
          (resourceAlicloudMongoDBInstanceCreate env d).2.1.id = newId))
  ∧ (∀ old' d' isNew,
      (resourceAlicloudMongoDBInstanceUpdate env old' d' isNew).2.1.id = d'.id
      ∨ ((resourceAlicloudMongoDBInstanceUpdate env old' d' isNew).2.1.id = ""
          ∧ env.describeInstance d'.id = .error .notFound))
  ∧ (∀ d',
      (resourceAlicloudMongoDBInstanceRead env d').2.1.id = d'.id
      ∨ ((resourceAlicloudMongoDBInstanceRead env d').2.1.id = ""
          ∧ env.describeInstance d'.id = .error .notFound)) := by
  refine ⟨⟨?_, ?_⟩, fun old' d' isNew => update_id env old' d' isNew,
    fun d' => read_id env d'⟩
  · intro e he
    unfold resourceAlicloudMongoDBInstanceCreate
    simp only [hb, hc, he]
    exact ⟨trivial, trivial⟩
  · intro e hupd
    unfold resourceAlicloudMongoDBInstanceCreate
    simp only [hb, hc]
    cases hw : env.waitCreate with
    | error e' => exact rfl
    | ok u =>
      exact update_error_id env emptyResourceData { d with id := newId } true hupd

/-- C10 witness: a create whose post-create poll times out still carries
the identifier returned by the create call. -/
theorem c10_identifier_assignment_witness :
    (resourceAlicloudMongoDBInstanceCreate envC10 dC10).2.1.id = "inst-1"
    ∧ (resourceAlicloudMongoDBInstanceCreate envC10 dC10).1 = .error (.other "timeout") :=
  (c10_identifier_assignment envC10 dC10 reqC10 [] "inst-1" (by decide) rfl).1.1
    (.other "timeout") rfl

end MDB
